import Mathlib

/-!
Verification of the KHARMA GRMHD flux pipeline: a shallow embedding of
`GRMHD::FluxCT` (src/kharma/grmhd/flux_ct.cpp), `LRToFlux`
(src/kharma/grmhd/fluxes.hpp) and `HARMDriver::MakeTaskList` (the HARM
driver file), together with theorems about the divergence-free invariant,
the local Lax-Friedrichs flux formula, wave-speed bounds, the Flux-CT
frame conditions, and the per-stage task ordering.

Grids are modelled as total functions from ℤ³ (ordered k, j, i as in the
source) to ℚ; machine doubles are replaced by exact rationals, as the
claims are about exact arithmetic.  Kokkos `View`s are value-initialized
on allocation, so a freshly allocated scalar grid reads 0 outside the
region a kernel has written.
-/

namespace Kharma

/-- The eight primitive/conserved component slots, as in `namespace prims`
of decs.hpp: density, internal energy, three velocity components and the
three magnetic-field components. -/
inductive prims where
  | rho | u | u1 | u2 | u3 | B1 | B2 | B3
  deriving DecidableEq, Repr

/-- A per-cell 8-vector grid (`GridVars`): component, then k, j, i. -/
abbrev GridVars : Type := prims → ℤ → ℤ → ℤ → ℚ

/-- A per-cell scalar grid (`GridScalar`): k, j, i. -/
abbrev GridScalar : Type := ℤ → ℤ → ℤ → ℚ

/-- Index bounds of a mesh block domain, as returned by
`pmb->cellbounds.is(domain)` and friends. -/
structure Bounds where
  is : ℤ
  ie : ℤ
  js : ℤ
  je : ℤ
  ks : ℤ
  ke : ℤ

/-! ## Constrained transport (`GRMHD::FluxCT`, flux_ct.cpp) -/

/-- Body of the `flux_ct_emf` kernel for `emf3`:
`0.25*(F1(B2,k,j,i) + F1(B2,k,j-1,i) - F2(B1,k,j,i) - F2(B1,k,j,i-1))`. -/
def emf3body (F1 F2 : GridVars) (k j i : ℤ) : ℚ :=
  (1/4) * (F1 .B2 k j i + F1 .B2 k (j-1) i - F2 .B1 k j i - F2 .B1 k j (i-1))

/-- Body of the `flux_ct_emf` kernel for `emf2`:
`-0.25*(F1(B3,k,j,i) + F1(B3,k-1,j,i) - F3(B1,k,j,i) - F3(B1,k,j,i-1))`. -/
def emf2body (F1 F3 : GridVars) (k j i : ℤ) : ℚ :=
  -((1/4) * (F1 .B3 k j i + F1 .B3 (k-1) j i - F3 .B1 k j i - F3 .B1 k j (i-1)))

/-- Body of the `flux_ct_emf` kernel for `emf1`:
`0.25*(F2(B3,k,j,i) + F2(B3,k-1,j,i) - F3(B2,k,j,i) - F3(B2,k,j-1,i))`. -/
def emf1body (F2 F3 : GridVars) (k j i : ℤ) : ℚ :=
  (1/4) * (F2 .B3 k j i + F2 .B3 (k-1) j i - F3 .B2 k j i - F3 .B2 k (j-1) i)

/-- The index range written by the `flux_ct_emf` loop:
`par_for("flux_ct_emf", ks+1, ke, js+1, je, is+1, ie, ...)`. -/
def emfRange (b : Bounds) (k j i : ℤ) : Prop :=
  b.ks + 1 ≤ k ∧ k ≤ b.ke ∧ b.js + 1 ≤ j ∧ j ≤ b.je ∧ b.is + 1 ≤ i ∧ i ≤ b.ie

instance instDecEmfRange (b : Bounds) (k j i : ℤ) : Decidable (emfRange b k j i) := by
  unfold emfRange; exact inferInstance

/-- The index range written by the `flux_ct` rewrite loop:
`par_for("flux_ct", ks, ke-1, js, je-1, is, ie-1, ...)`. -/
def ctRange (b : Bounds) (k j i : ℤ) : Prop :=
  b.ks ≤ k ∧ k ≤ b.ke - 1 ∧ b.js ≤ j ∧ j ≤ b.je - 1 ∧ b.is ≤ i ∧ i ≤ b.ie - 1

instance instDecCtRange (b : Bounds) (k j i : ℤ) : Decidable (ctRange b k j i) := by
  unfold ctRange; exact inferInstance

/-- The `emf3` array after the `flux_ct_emf` loop: the kernel body inside the
written range, and the Kokkos value-initialized 0 elsewhere. -/
def emf3A (b : Bounds) (F1 F2 : GridVars) (k j i : ℤ) : ℚ :=
  if emfRange b k j i then emf3body F1 F2 k j i else 0

/-- The `emf2` array after the `flux_ct_emf` loop. -/
def emf2A (b : Bounds) (F1 F3 : GridVars) (k j i : ℤ) : ℚ :=
  if emfRange b k j i then emf2body F1 F3 k j i else 0

/-- The `emf1` array after the `flux_ct_emf` loop. -/
def emf1A (b : Bounds) (F2 F3 : GridVars) (k j i : ℤ) : ℚ :=
  if emfRange b k j i then emf1body F2 F3 k j i else 0

/-- The `flux_ct` rewrite loop acting on `F1`, as a function of arbitrary
edge fields `e2 e3` (the loop reads only the emf arrays, never the fluxes):
inside the written range `F1(B1) = 0`, `F1(B2) = 0.5*(emf3(k,j,i)+emf3(k,j+1,i))`,
`F1(B3) = -0.5*(emf2(k,j,i)+emf2(k+1,j,i))`; all other components and all
locations outside the range keep their previous values. -/
def rewriteF1 (b : Bounds) (e2 e3 : GridScalar) (F1 : GridVars) : GridVars :=
  fun p k j i =>
    if ctRange b k j i then
      match p with
      | .B1 => 0
      | .B2 => (1/2) * (e3 k j i + e3 k (j+1) i)
      | .B3 => -((1/2) * (e2 k j i + e2 (k+1) j i))
      | _ => F1 p k j i
    else F1 p k j i

/-- The `flux_ct` rewrite loop acting on `F2`: inside the written range
`F2(B1) = -0.5*(emf3(k,j,i)+emf3(k,j,i+1))`, `F2(B2) = 0`,
`F2(B3) = 0.5*(emf1(k,j,i)+emf1(k+1,j,i))`. -/
def rewriteF2 (b : Bounds) (e1 e3 : GridScalar) (F2 : GridVars) : GridVars :=
  fun p k j i =>
    if ctRange b k j i then
      match p with
      | .B1 => -((1/2) * (e3 k j i + e3 k j (i+1)))
      | .B2 => 0
      | .B3 => (1/2) * (e1 k j i + e1 (k+1) j i)
      | _ => F2 p k j i
    else F2 p k j i

/-- The `flux_ct` rewrite loop acting on `F3`: inside the written range
`F3(B1) = 0.5*(emf2(k,j,i)+emf2(k,j,i+1))`, `F3(B2) = -0.5*(emf1(k,j,i)+emf1(k,j+1,i))`,
`F3(B3) = 0`. -/
def rewriteF3 (b : Bounds) (e1 e2 : GridScalar) (F3 : GridVars) : GridVars :=
  fun p k j i =>
    if ctRange b k j i then
      match p with
      | .B1 => (1/2) * (e2 k j i + e2 k j (i+1))
      | .B2 => -((1/2) * (e1 k j i + e1 k (j+1) i))
      | .B3 => 0
      | _ => F3 p k j i
    else F3 p k j i

/-- `GRMHD::FluxCT`: allocate the three (zero-initialized) emf arrays, fill
them with the `flux_ct_emf` kernel over `(ks+1..ke, js+1..je, is+1..ie)`,
then rewrite the magnetic components of the three directional flux arrays
with the `flux_ct` kernel over `(ks..ke-1, js..je-1, is..ie-1)`.  The emf
arrays are local temporaries: the returned state is only the flux triple. -/
def FluxCT (b : Bounds) (F1 F2 F3 : GridVars) : GridVars × GridVars × GridVars :=
  (rewriteF1 b (emf2A b F1 F3) (emf3A b F1 F2) F1,
   rewriteF2 b (emf1A b F2 F3) (emf3A b F1 F2) F2,
   rewriteF3 b (emf1A b F2 F3) (emf2A b F1 F3) F3)

/-- Contribution of the flux divergence to the time derivative of the
cell-centered field component `p` at cell `(k,j,i)`: the signed sum of the
six face fluxes of that cell (unit cell measure, exact arithmetic). -/
def dBdt (F1 F2 F3 : GridVars) (p : prims) (k j i : ℤ) : ℚ :=
  -((F1 p k j (i+1) - F1 p k j i) + (F2 p k (j+1) i - F2 p k j i) +
    (F3 p (k+1) j i - F3 p k j i))

/-- Corner-centered discrete divergence of a cell-centered vector field
(Toth flux-CT / iharm convention), indexed by the cell whose low corner the
value sits on: each partial derivative is the average of the four parallel
differences around the corner. -/
def cornerDiv (B1c B2c B3c : GridScalar) (k j i : ℤ) : ℚ :=
  (1/4) * (B1c k j i + B1c k (j-1) i + B1c (k-1) j i + B1c (k-1) (j-1) i
         - B1c k j (i-1) - B1c k (j-1) (i-1) - B1c (k-1) j (i-1) - B1c (k-1) (j-1) (i-1))
  + (1/4) * (B2c k j i + B2c k j (i-1) + B2c (k-1) j i + B2c (k-1) j (i-1)
         - B2c k (j-1) i - B2c k (j-1) (i-1) - B2c (k-1) (j-1) i - B2c (k-1) (j-1) (i-1))
  + (1/4) * (B3c k j i + B3c k j (i-1) + B3c k (j-1) i + B3c k (j-1) (i-1)
         - B3c (k-1) j i - B3c (k-1) j (i-1) - B3c (k-1) (j-1) i - B3c (k-1) (j-1) (i-1))

/-- The update that a flux triple induces on the corner-centered discrete
divergence of B: the corner divergence of the three per-component flux
divergence contributions. -/
def divBdot (F1 F2 F3 : GridVars) (k j i : ℤ) : ℚ :=
  cornerDiv (dBdt F1 F2 F3 .B1) (dBdt F1 F2 F3 .B2) (dBdt F1 F2 F3 .B3) k j i

/-! ## The local Lax-Friedrichs solver (`LRToFlux`, fluxes.hpp) -/

/-- Grid stagger loci (`Loci` of decs.hpp, restricted to the loci `LRToFlux`
uses): cell center and the three face centerings. -/
inductive Loci where
  | center | face1 | face2 | face3
  deriving DecidableEq, Repr

/-- Modelled from the spec: the state/flux/wave-speed primitives called by
`LRToFlux` (`get_state`, `prim_to_flux`, `mhd_vchar`) live in phys.hpp,
which is not among the sources here.  Each is called with the primitive
array, an index triple and a stagger locus; per the spec the geometry
provider is a pure function of position and locus, and reconstruction
hands the solver per-face primitive states, so the calls are modelled as
functions of the index they are invoked at (`k j i`, the geometry lookup),
the locus, the primitive 8-vector read from the array at that index, the
four-vector decomposition and the direction.  The fields are closed over
the fixed geometry `G` and the per-call EOS; `prim_to_flux` with direction
0 yields the conserved vector `U` instead of a directional flux, and
`vchar_roots` gives the two wave-mode roots from which `mhd_vchar` takes
its extremal speeds. -/
structure Phys (FourV : Type) where
  get_state : ℤ → ℤ → ℤ → Loci → (prims → ℚ) → FourV
  prim_to_flux : ℤ → ℤ → ℤ → Loci → (prims → ℚ) → FourV → ℤ → prims → ℚ
  vchar_roots : ℤ → ℤ → ℤ → Loci → (prims → ℚ) → FourV → ℤ → ℚ × ℚ

/-- Modelled from the spec: `mhd_vchar` (phys.hpp, not among the sources)
returns the extremal characteristic speeds — the fastest and slowest
signal speeds of the magnetized-fluid wave modes — so its `cmax`/`cmin`
outputs are the maximum and minimum of the two dispersion-relation roots. -/
def mhd_vchar {FourV : Type} (ph : Phys FourV) (k j i : ℤ) (loc : Loci)
    (st : prims → ℚ) (D : FourV) (dir : ℤ) : ℚ × ℚ :=
  let r := ph.vchar_roots k j i loc st D dir
  (max r.1 r.2, min r.1 r.2)

/-- The outer `switch (dir)` of `LRToFlux` choosing the face locus.  The
switch has no default case and no assertion — only a
`#if DEBUG // TODO Throw an error #endif` comment — so for a direction
outside 1..3 the locus is left undefined, modelled as `none`. -/
def locOfDir (dir : ℤ) : Option Loci :=
  if dir = 1 then some .face1
  else if dir = 2 then some .face2
  else if dir = 3 then some .face3
  else none

/-- The per-cell `switch (dir)` of the fused kernel choosing the offset
index `(kl, jl, il)` that the "left" state is read from: one zone backwards
along the active direction.  Like the outer switch it has no default; the
fallthrough value is irrelevant because `LRToFlux` is undefined there. -/
def leftIdx (dir : ℤ) (k j i : ℤ) : ℤ × ℤ × ℤ :=
  if dir = 1 then (k, j, i-1)
  else if dir = 2 then (k, j-1, i)
  else if dir = 3 then (k-1, j, i)
  else (k, j, i)

/-- The index range of the `uber_flux` loop:
`par_for("uber_flux", ks-1, ke+1, js-1, je+1, is-1, ie+1, ...)` with
`is..ie` etc. the `IndexDomain::interior` bounds — the block interior
extended by one cell in every direction. -/
def haloRange (b : Bounds) (k j i : ℤ) : Prop :=
  b.ks - 1 ≤ k ∧ k ≤ b.ke + 1 ∧ b.js - 1 ≤ j ∧ j ≤ b.je + 1 ∧
  b.is - 1 ≤ i ∧ i ≤ b.ie + 1

instance instDecHaloRange (b : Bounds) (k j i : ℤ) : Decidable (haloRange b k j i) := by
  unfold haloRange; exact inferInstance

/-- One evaluation of the fused `uber_flux` kernel body at `(k,j,i)`:
all left-side calls (`get_state`, `prim_to_flux` for `Ul` and `fluxL`,
`mhd_vchar`) are made at the offset index `(kl,jl,il)` — the source passes
`kl, jl, il` to them, so both the state read and the geometry lookup sit
one zone back — while the right-side calls are made at `(k,j,i)`.  The
blended speed is
`ctop_loc = max(fabs(max(max(0,cmaxL),cmaxR)), fabs(max(max(0,-cminL),-cminR)))`
and the flux vector is `0.5*(fluxL[p] + fluxR[p] - ctop_loc*(Ur[p] - Ul[p]))`.
Returns the 8-component flux vector together with `ctop_loc`. -/
def lrKernel {FourV : Type} (ph : Phys FourV) (pl pr : GridVars) (dir : ℤ)
    (loc : Loci) (k j i : ℤ) : (prims → ℚ) × ℚ :=
  let l := leftIdx dir k j i
  let pL : prims → ℚ := fun p => pl p l.1 l.2.1 l.2.2
  let pR : prims → ℚ := fun p => pr p k j i
  let Dl := ph.get_state l.1 l.2.1 l.2.2 loc pL
  let Ul := ph.prim_to_flux l.1 l.2.1 l.2.2 loc pL Dl 0
  let fluxL := ph.prim_to_flux l.1 l.2.1 l.2.2 loc pL Dl dir
  let cL := mhd_vchar ph l.1 l.2.1 l.2.2 loc pL Dl dir
  let Dr := ph.get_state k j i loc pR
  let Ur := ph.prim_to_flux k j i loc pR Dr 0
  let fluxR := ph.prim_to_flux k j i loc pR Dr dir
  let cR := mhd_vchar ph k j i loc pR Dr dir
  let cmax := |max (max 0 cL.1) cR.1|
  let cmin := |max (max 0 (-cL.2)) (-cR.2)|
  let ctop_loc := max cmax cmin
  (fun p => (1/2) * (fluxL p + fluxR p - ctop_loc * (Ur p - Ul p)), ctop_loc)

/-- The flux array after the `uber_flux` loop: the kernel's flux vector on
the one-cell halo around the interior, the previous contents elsewhere. -/
def lrFluxOut {FourV : Type} (b : Bounds) (ph : Phys FourV) (pl pr : GridVars)
    (dir : ℤ) (loc : Loci) (flux : GridVars) : GridVars :=
  fun p k j i =>
    if haloRange b k j i then (lrKernel ph pl pr dir loc k j i).1 p
    else flux p k j i

/-- The `ctop(dir,·)` face-speed slice after the `uber_flux` loop: the
kernel's `ctop_loc` on the one-cell halo, the previous contents elsewhere. -/
def lrCtopOut {FourV : Type} (b : Bounds) (ph : Phys FourV) (pl pr : GridVars)
    (dir : ℤ) (loc : Loci) (ctop : GridScalar) : GridScalar :=
  fun k j i =>
    if haloRange b k j i then (lrKernel ph pl pr dir loc k j i).2
    else ctop k j i

/-- `LRToFlux`: dispatch on the direction tag (undefined — `none` — outside
1..3, where the source's switch silently leaves the locus uninitialized),
then run the fused kernel over the one-cell halo around the interior,
writing the flux array and the `ctop(dir,·)` face-speed slice; locations
outside the loop range keep their previous contents. -/
def LRToFlux {FourV : Type} (b : Bounds) (ph : Phys FourV) (pl pr : GridVars)
    (dir : ℤ) (flux : GridVars) (ctop : GridScalar) :
    Option (GridVars × GridScalar) :=
  match locOfDir dir with
  | none => none
  | some loc =>
      some (lrFluxOut b ph pl pr dir loc flux, lrCtopOut b ph pl pr dir loc ctop)

/-- The primitive 8-vector read at a single grid point. -/
def localState (P : GridVars) (k j i : ℤ) : prims → ℚ := fun p => P p k j i

/-- The left face state of the face at `(k,j,i)`: the primitive 8-vector
read from `pl` at the index one zone backwards along direction `dir`. -/
def leftFaceState (pl : GridVars) (dir : ℤ) (k j i : ℤ) : prims → ℚ :=
  localState pl (leftIdx dir k j i).1 (leftIdx dir k j i).2.1 (leftIdx dir k j i).2.2

/-- Conserved vector of one face state (`prim_to_flux` with direction 0). -/
def sideU {FourV : Type} (ph : Phys FourV) (k j i : ℤ) (loc : Loci)
    (st : prims → ℚ) : prims → ℚ :=
  ph.prim_to_flux k j i loc st (ph.get_state k j i loc st) 0

/-- Physical flux of one face state in direction `dir`. -/
def sideFlux {FourV : Type} (ph : Phys FourV) (k j i : ℤ) (loc : Loci)
    (st : prims → ℚ) (dir : ℤ) : prims → ℚ :=
  ph.prim_to_flux k j i loc st (ph.get_state k j i loc st) dir

/-- Extremal speeds `(cmax, cmin)` of one face state, via `mhd_vchar`. -/
def sideSpeeds {FourV : Type} (ph : Phys FourV) (k j i : ℤ) (loc : Loci)
    (st : prims → ℚ) (dir : ℤ) : ℚ × ℚ :=
  mhd_vchar ph k j i loc st (ph.get_state k j i loc st) dir

/-- The blended characteristic speed stored in `ctop`, built from the four
one-sided extremal speeds of the two adjacent face states — the left
side's speeds evaluated at the offset index, as the source's `mhd_vchar`
call is. -/
def ctopOf {FourV : Type} (ph : Phys FourV) (pl pr : GridVars) (dir : ℤ)
    (loc : Loci) (k j i : ℤ) : ℚ :=
  let l := leftIdx dir k j i
  let cL := sideSpeeds ph l.1 l.2.1 l.2.2 loc (localState pl l.1 l.2.1 l.2.2) dir
  let cR := sideSpeeds ph k j i loc (localState pr k j i) dir
  max |max (max 0 cL.1) cR.1| |max (max 0 (-cL.2)) (-cR.2)|

/-! ## The per-stage task list (`HARMDriver::MakeTaskList`) -/

/-- The tasks added by `HARMDriver::MakeTaskList` for one stage, named
after the `t_*` handles of the source. -/
inductive TaskName where
  | start_recv
  | calc_flux1
  | calc_flux2
  | calc_flux3
  | flux_ct
  | send_flux
  | recv_flux
  | flux_div
  | source_term
  | update_container
  | send_bound
  | recv_bound
  | fill_from_bufs
  | clear_comm
  | prolong_bound
  | set_parthenon_bc
  | set_custom_bc
  | fill_derived
  | new_dt
  | tag_refine
  deriving DecidableEq, Repr

/-- Direct dependencies of each task, exactly as wired by the `AddTask`
calls of `MakeTaskList` (`t_calculate_flux = t1 | t2 | t3` makes the three
flux tasks the direct dependencies of `flux_ct`; `none(0)` is the empty
dependency). -/
def taskDeps : TaskName → List TaskName
  | .start_recv => []
  | .calc_flux1 => [.start_recv]
  | .calc_flux2 => [.start_recv]
  | .calc_flux3 => [.start_recv]
  | .flux_ct => [.calc_flux1, .calc_flux2, .calc_flux3]
  | .send_flux => [.flux_ct]
  | .recv_flux => [.flux_ct]
  | .flux_div => [.recv_flux]
  | .source_term => [.flux_div]
  | .update_container => [.source_term]
  | .send_bound => [.update_container]
  | .recv_bound => [.update_container]
  | .fill_from_bufs => [.recv_bound]
  | .clear_comm => [.fill_from_bufs]
  | .prolong_bound => [.fill_from_bufs]
  | .set_parthenon_bc => [.prolong_bound]
  | .set_custom_bc => [.set_parthenon_bc]
  | .fill_derived => [.set_custom_bc]
  | .new_dt => [.fill_derived]
  | .tag_refine => [.fill_derived]

/-- The list of tasks added for one stage: the final stage additionally
estimates the next timestep and, on an adaptive mesh, tags refinement. -/
def taskAdds (finalStage adaptive : Bool) : List TaskName :=
  [.start_recv, .calc_flux1, .calc_flux2, .calc_flux3, .flux_ct,
   .send_flux, .recv_flux, .flux_div, .source_term, .update_container,
   .send_bound, .recv_bound, .fill_from_bufs, .clear_comm, .prolong_bound,
   .set_parthenon_bc, .set_custom_bc, .fill_derived]
  ++ (if finalStage then
        [.new_dt] ++ (if adaptive then [.tag_refine] else [])
      else [])

/-- Reachability along dependency edges with explicit fuel: `reachB n a b`
holds when `a = b` or `b` transitively depends on `a` within `n` hops. -/
def reachB : ℕ → TaskName → TaskName → Bool
  | 0, a, b => a == b
  | n+1, a, b => a == b || (taskDeps b).any (fun c => reachB n a c)

/-- Strict task ordering: `precedes a b` holds when `b` transitively
depends on `a` (so the scheduler must complete `a` before starting `b`).
Twenty hops cover the whole twenty-task graph. -/
def precedes (a b : TaskName) : Bool := !(a == b) && reachB 20 a b

/-! ## Concrete sample data, used to evaluate the theorems at a point -/

/-- Sample bounds: a 5³ block of entire-domain indices 0..4. -/
def bW : Bounds := ⟨0, 4, 0, 4, 0, 4⟩

/-- A numbering of the components, to build sample grids. -/
def pIdx : prims → ℚ
  | .rho => 0 | .u => 1 | .u1 => 2 | .u2 => 3 | .u3 => 4
  | .B1 => 5 | .B2 => 6 | .B3 => 7

/-- A sample direction-1 flux grid with no special structure. -/
def FW1 : GridVars := fun p k j i => pIdx p + (k * k + 2 * j + 5 * i : ℤ)

/-- A sample direction-2 flux grid with no special structure. -/
def FW2 : GridVars := fun p k j i => pIdx p * 2 + (k + 3 * j * j - i : ℤ)

/-- A sample direction-3 flux grid with no special structure. -/
def FW3 : GridVars := fun p k j i => pIdx p - (k * j + i * i : ℤ)

/-- A sample physics instance (no four-vector payload). -/
def physW : Phys Unit where
  get_state := fun _ _ _ _ _ => ()
  prim_to_flux := fun k j i _ st _ dir p => st p + (k + 2 * j + 3 * i + dir : ℤ)
  vchar_roots := fun k _ _ _ st _ _ => (st .rho + (k : ℚ), st .u - 1)

/-- A sample reconstructed-left primitive grid. -/
def plW : GridVars := fun p k j i => pIdx p + (k - j + 2 * i : ℤ)

/-- A sample reconstructed-right primitive grid. -/
def prW : GridVars := fun p k j i => pIdx p * 3 + (k + j - i : ℤ)

/-- A sample previous-contents flux grid. -/
def fluxW : GridVars := fun p k j i => pIdx p + (k + j + i : ℤ) * 7

/-- A sample previous-contents ctop slice. -/
def ctopW : GridScalar := fun k j i => (k + 10 * j + 100 * i : ℤ)

/-- A constant primitive grid: the left-offset read and the face read give
identical primitive face states everywhere. -/
def pcW : GridVars := fun p _ _ _ => pIdx p

/-- A position-dependent physics instance (a stand-in for a spatially
varying metric): conserved vector and flux pick up the call-site index,
and both wave-mode roots are the constant pair (1, -1). -/
def physC : Phys Unit where
  get_state := fun _ _ _ _ _ => ()
  prim_to_flux := fun k j i _ st _ dir p => st p + (k + j + i + dir : ℤ)
  vchar_roots := fun _ _ _ _ _ _ _ => (1, -1)

/-! ## Reduction lemmas for the Flux-CT rewrite pass -/

theorem FluxCT_fst (b : Bounds) (F1 F2 F3 : GridVars) :
    (FluxCT b F1 F2 F3).1 = rewriteF1 b (emf2A b F1 F3) (emf3A b F1 F2) F1 := rfl

theorem FluxCT_snd_fst (b : Bounds) (F1 F2 F3 : GridVars) :
    (FluxCT b F1 F2 F3).2.1 = rewriteF2 b (emf1A b F2 F3) (emf3A b F1 F2) F2 := rfl

theorem FluxCT_snd_snd (b : Bounds) (F1 F2 F3 : GridVars) :
    (FluxCT b F1 F2 F3).2.2 = rewriteF3 b (emf1A b F2 F3) (emf2A b F1 F3) F3 := rfl

theorem rewriteF1_B1_eq (b : Bounds) (e2 e3 : GridScalar) (F1 : GridVars) (k j i : ℤ)
    (h1 : b.ks ≤ k) (h2 : k ≤ b.ke - 1) (h3 : b.js ≤ j) (h4 : j ≤ b.je - 1)
    (h5 : b.is ≤ i) (h6 : i ≤ b.ie - 1) :
    rewriteF1 b e2 e3 F1 .B1 k j i = 0 := by
  have h : ctRange b k j i := ⟨h1, h2, h3, h4, h5, h6⟩
  simp [rewriteF1, h]

theorem rewriteF1_B2_eq (b : Bounds) (e2 e3 : GridScalar) (F1 : GridVars) (k j i : ℤ)
    (h1 : b.ks ≤ k) (h2 : k ≤ b.ke - 1) (h3 : b.js ≤ j) (h4 : j ≤ b.je - 1)
    (h5 : b.is ≤ i) (h6 : i ≤ b.ie - 1) :
    rewriteF1 b e2 e3 F1 .B2 k j i = (1/2) * (e3 k j i + e3 k (j+1) i) := by
  have h : ctRange b k j i := ⟨h1, h2, h3, h4, h5, h6⟩
  simp [rewriteF1, h]

theorem rewriteF1_B3_eq (b : Bounds) (e2 e3 : GridScalar) (F1 : GridVars) (k j i : ℤ)
    (h1 : b.ks ≤ k) (h2 : k ≤ b.ke - 1) (h3 : b.js ≤ j) (h4 : j ≤ b.je - 1)
    (h5 : b.is ≤ i) (h6 : i ≤ b.ie - 1) :
    rewriteF1 b e2 e3 F1 .B3 k j i = -((1/2) * (e2 k j i + e2 (k+1) j i)) := by
  have h : ctRange b k j i := ⟨h1, h2, h3, h4, h5, h6⟩
  simp [rewriteF1, h]

theorem rewriteF2_B1_eq (b : Bounds) (e1 e3 : GridScalar) (F2 : GridVars) (k j i : ℤ)
    (h1 : b.ks ≤ k) (h2 : k ≤ b.ke - 1) (h3 : b.js ≤ j) (h4 : j ≤ b.je - 1)
    (h5 : b.is ≤ i) (h6 : i ≤ b.ie - 1) :
    rewriteF2 b e1 e3 F2 .B1 k j i = -((1/2) * (e3 k j i + e3 k j (i+1))) := by
  have h : ctRange b k j i := ⟨h1, h2, h3, h4, h5, h6⟩
  simp [rewriteF2, h]

theorem rewriteF2_B2_eq (b : Bounds) (e1 e3 : GridScalar) (F2 : GridVars) (k j i : ℤ)
    (h1 : b.ks ≤ k) (h2 : k ≤ b.ke - 1) (h3 : b.js ≤ j) (h4 : j ≤ b.je - 1)
    (h5 : b.is ≤ i) (h6 : i ≤ b.ie - 1) :
    rewriteF2 b e1 e3 F2 .B2 k j i = 0 := by
  have h : ctRange b k j i := ⟨h1, h2, h3, h4, h5, h6⟩
  simp [rewriteF2, h]

theorem rewriteF2_B3_eq (b : Bounds) (e1 e3 : GridScalar) (F2 : GridVars) (k j i : ℤ)
    (h1 : b.ks ≤ k) (h2 : k ≤ b.ke - 1) (h3 : b.js ≤ j) (h4 : j ≤ b.je - 1)
    (h5 : b.is ≤ i) (h6 : i ≤ b.ie - 1) :
    rewriteF2 b e1 e3 F2 .B3 k j i = (1/2) * (e1 k j i + e1 (k+1) j i) := by
  have h : ctRange b k j i := ⟨h1, h2, h3, h4, h5, h6⟩
  simp [rewriteF2, h]

theorem rewriteF3_B1_eq (b : Bounds) (e1 e2 : GridScalar) (F3 : GridVars) (k j i : ℤ)
    (h1 : b.ks ≤ k) (h2 : k ≤ b.ke - 1) (h3 : b.js ≤ j) (h4 : j ≤ b.je - 1)
    (h5 : b.is ≤ i) (h6 : i ≤ b.ie - 1) :
    rewriteF3 b e1 e2 F3 .B1 k j i = (1/2) * (e2 k j i + e2 k j (i+1)) := by
  have h : ctRange b k j i := ⟨h1, h2, h3, h4, h5, h6⟩
  simp [rewriteF3, h]

theorem rewriteF3_B2_eq (b : Bounds) (e1 e2 : GridScalar) (F3 : GridVars) (k j i : ℤ)
    (h1 : b.ks ≤ k) (h2 : k ≤ b.ke - 1) (h3 : b.js ≤ j) (h4 : j ≤ b.je - 1)
    (h5 : b.is ≤ i) (h6 : i ≤ b.ie - 1) :
    rewriteF3 b e1 e2 F3 .B2 k j i = -((1/2) * (e1 k j i + e1 k (j+1) i)) := by
  have h : ctRange b k j i := ⟨h1, h2, h3, h4, h5, h6⟩
  simp [rewriteF3, h]

theorem rewriteF3_B3_eq (b : Bounds) (e1 e2 : GridScalar) (F3 : GridVars) (k j i : ℤ)
    (h1 : b.ks ≤ k) (h2 : k ≤ b.ke - 1) (h3 : b.js ≤ j) (h4 : j ≤ b.je - 1)
    (h5 : b.is ≤ i) (h6 : i ≤ b.ie - 1) :
    rewriteF3 b e1 e2 F3 .B3 k j i = 0 := by
  have h : ctRange b k j i := ⟨h1, h2, h3, h4, h5, h6⟩
  simp [rewriteF3, h]

/-- C1: for every set of three directional flux fields given as input, after
`FluxCT` completes, the signed sum of the rewritten magnetic-field flux
components around every interior cell — the update to the corner-centered
discrete divergence of B — equals zero exactly in exact arithmetic, for
all interior cell indices (ghost width `NG ≥ 2`, Parthenon's minimum, so
the statement covers the interior cells nearest the block edges, where the
emf-assembly loop starts one zone inside the block and the rewrite loop
stops one zone short of the upper edge), independent of the input flux
values. -/
theorem FluxCT_divB_update_zero (b : Bounds) (NG : ℤ) (F1 F2 F3 : GridVars)
    (k j i : ℤ) (hNG : 2 ≤ NG)
    (hk1 : b.ks + NG ≤ k) (hk2 : k ≤ b.ke - NG)
    (hj1 : b.js + NG ≤ j) (hj2 : j ≤ b.je - NG)
    (hi1 : b.is + NG ≤ i) (hi2 : i ≤ b.ie - NG) :
    divBdot (FluxCT b F1 F2 F3).1 (FluxCT b F1 F2 F3).2.1 (FluxCT b F1 F2 F3).2.2
      k j i = 0 := by
  simp (disch := omega) only [divBdot, cornerDiv, dBdt,
    FluxCT_fst, FluxCT_snd_fst, FluxCT_snd_snd,
    rewriteF1_B1_eq, rewriteF1_B2_eq, rewriteF1_B3_eq,
    rewriteF2_B1_eq, rewriteF2_B2_eq, rewriteF2_B3_eq,
    rewriteF3_B1_eq, rewriteF3_B2_eq, rewriteF3_B3_eq]
  ring_nf

/-- Witness: the divergence-update theorem evaluated on the sample block
and fluxes at the interior cell (2,2,2) with ghost width 2. -/
theorem FluxCT_divB_update_zero_witness :
    (2:ℤ) ≤ 2 ∧ bW.ks + 2 ≤ 2 ∧ (2:ℤ) ≤ bW.ke - 2 ∧
    divBdot (FluxCT bW FW1 FW2 FW3).1 (FluxCT bW FW1 FW2 FW3).2.1
      (FluxCT bW FW1 FW2 FW3).2.2 2 2 2 = 0 :=
  ⟨by decide, by decide, by decide,
   FluxCT_divB_update_zero bW 2 FW1 FW2 FW3 2 2 2 (by decide) (by decide)
     (by decide) (by decide) (by decide) (by decide) (by decide)⟩

/-- C2: `FluxCT` proceeds in exactly two passes.  First, over the emf
range, each edge-centered EMF scalar is one quarter of the signed sum of
the four adjacent magnetic-field flux contributions (with the signs of
Toth's scheme; e.g. `emf3(k,j,i) = 0.25*(F1(B2,k,j,i) + F1(B2,k,j-1,i) -
F2(B1,k,j,i) - F2(B1,k,j,i-1))`).  Second, `FluxCT` is exactly the rewrite
pass applied to those EMF arrays, and over the rewrite range that pass
overwrites each directional magnetic flux as a signed combination of the
two EMF components orthogonal to its direction — formulas that mention
only the EMF fields, so the rewritten magnetic fluxes are unchanged when
the pre-existing flux arrays are replaced by any others. -/
theorem FluxCT_two_pass (b : Bounds) (F1 F2 F3 : GridVars) :
    (∀ k j i : ℤ, emfRange b k j i →
      emf3A b F1 F2 k j i
          = (1/4) * (F1 .B2 k j i + F1 .B2 k (j-1) i - F2 .B1 k j i - F2 .B1 k j (i-1)) ∧
      emf2A b F1 F3 k j i
          = -((1/4) * (F1 .B3 k j i + F1 .B3 (k-1) j i - F3 .B1 k j i - F3 .B1 k j (i-1))) ∧
      emf1A b F2 F3 k j i
          = (1/4) * (F2 .B3 k j i + F2 .B3 (k-1) j i - F3 .B2 k j i - F3 .B2 k (j-1) i)) ∧
    FluxCT b F1 F2 F3
        = (rewriteF1 b (emf2A b F1 F3) (emf3A b F1 F2) F1,
           rewriteF2 b (emf1A b F2 F3) (emf3A b F1 F2) F2,
           rewriteF3 b (emf1A b F2 F3) (emf2A b F1 F3) F3) ∧
    (∀ (e1 e2 e3 : GridScalar) (G1 G2 G3 : GridVars) (k j i : ℤ), ctRange b k j i →
      (rewriteF1 b e2 e3 F1 .B1 k j i = 0 ∧
       rewriteF1 b e2 e3 F1 .B2 k j i = (1/2) * (e3 k j i + e3 k (j+1) i) ∧
       rewriteF1 b e2 e3 F1 .B3 k j i = -((1/2) * (e2 k j i + e2 (k+1) j i)) ∧
       rewriteF2 b e1 e3 F2 .B1 k j i = -((1/2) * (e3 k j i + e3 k j (i+1))) ∧
       rewriteF2 b e1 e3 F2 .B2 k j i = 0 ∧
       rewriteF2 b e1 e3 F2 .B3 k j i = (1/2) * (e1 k j i + e1 (k+1) j i) ∧
       rewriteF3 b e1 e2 F3 .B1 k j i = (1/2) * (e2 k j i + e2 k j (i+1)) ∧
       rewriteF3 b e1 e2 F3 .B2 k j i = -((1/2) * (e1 k j i + e1 k (j+1) i)) ∧
       rewriteF3 b e1 e2 F3 .B3 k j i = 0) ∧
      (rewriteF1 b e2 e3 F1 .B1 k j i = rewriteF1 b e2 e3 G1 .B1 k j i ∧
       rewriteF1 b e2 e3 F1 .B2 k j i = rewriteF1 b e2 e3 G1 .B2 k j i ∧
       rewriteF1 b e2 e3 F1 .B3 k j i = rewriteF1 b e2 e3 G1 .B3 k j i ∧
       rewriteF2 b e1 e3 F2 .B1 k j i = rewriteF2 b e1 e3 G2 .B1 k j i ∧
       rewriteF2 b e1 e3 F2 .B2 k j i = rewriteF2 b e1 e3 G2 .B2 k j i ∧
       rewriteF2 b e1 e3 F2 .B3 k j i = rewriteF2 b e1 e3 G2 .B3 k j i ∧
       rewriteF3 b e1 e2 F3 .B1 k j i = rewriteF3 b e1 e2 G3 .B1 k j i ∧
       rewriteF3 b e1 e2 F3 .B2 k j i = rewriteF3 b e1 e2 G3 .B2 k j i ∧
       rewriteF3 b e1 e2 F3 .B3 k j i = rewriteF3 b e1 e2 G3 .B3 k j i)) := by
  refine ⟨fun k j i h => ?_, rfl, fun e1 e2 e3 G1 G2 G3 k j i h => ?_⟩
  · simp [emf1A, emf2A, emf3A, emf1body, emf2body, emf3body, h]
  · simp [rewriteF1, rewriteF2, rewriteF3, h]

/-- Witness: the two-pass theorem evaluated on the sample block and fluxes,
with the EMF formula checked at (2,2,2) and the rewrite formula for the
`B2` component of `F1` checked at (1,1,1). -/
theorem FluxCT_two_pass_witness :
    emfRange bW 2 2 2 ∧
    (emf3A bW FW1 FW2 2 2 2
        = (1/4) * (FW1 .B2 2 2 2 + FW1 .B2 2 (2-1) 2 - FW2 .B1 2 2 2 - FW2 .B1 2 2 (2-1)) ∧
     emf2A bW FW1 FW3 2 2 2
        = -((1/4) * (FW1 .B3 2 2 2 + FW1 .B3 (2-1) 2 2 - FW3 .B1 2 2 2 - FW3 .B1 2 2 (2-1))) ∧
     emf1A bW FW2 FW3 2 2 2
        = (1/4) * (FW2 .B3 2 2 2 + FW2 .B3 (2-1) 2 2 - FW3 .B2 2 2 2 - FW3 .B2 2 (2-1) 2)) ∧
    ctRange bW 1 1 1 ∧
    rewriteF1 bW (emf2A bW FW1 FW3) (emf3A bW FW1 FW2) FW1 .B2 1 1 1
        = (1/2) * (emf3A bW FW1 FW2 1 1 1 + emf3A bW FW1 FW2 1 (1+1) 1) :=
  ⟨by decide, (FluxCT_two_pass bW FW1 FW2 FW3).1 2 2 2 (by decide), by decide,
   (((FluxCT_two_pass bW FW1 FW2 FW3).2.2 (emf1A bW FW2 FW3) (emf2A bW FW1 FW3)
       (emf3A bW FW1 FW2) FW1 FW2 FW3 1 1 1 (by decide)).1).2.1⟩

/-- C6: after the rewrite pass of `FluxCT`, the magnetic flux component
parallel to its own flux direction — the `B1` component of `F1`, the `B2`
component of `F2` and the `B3` component of `F3` — is exactly zero at
every location in the rewritten index range. -/
theorem FluxCT_parallel_flux_zero (b : Bounds) (F1 F2 F3 : GridVars) (k j i : ℤ)
    (h : ctRange b k j i) :
    (FluxCT b F1 F2 F3).1 .B1 k j i = 0 ∧
    (FluxCT b F1 F2 F3).2.1 .B2 k j i = 0 ∧
    (FluxCT b F1 F2 F3).2.2 .B3 k j i = 0 := by
  refine ⟨?_, ?_, ?_⟩ <;>
    simp [FluxCT, rewriteF1, rewriteF2, rewriteF3, h]

/-- Witness: the parallel components vanish at (0,0,0) of the sample
block, the lowest corner of the rewrite range. -/
theorem FluxCT_parallel_flux_zero_witness :
    ctRange bW 0 0 0 ∧
    ((FluxCT bW FW1 FW2 FW3).1 .B1 0 0 0 = 0 ∧
     (FluxCT bW FW1 FW2 FW3).2.1 .B2 0 0 0 = 0 ∧
     (FluxCT bW FW1 FW2 FW3).2.2 .B3 0 0 0 = 0) :=
  ⟨by decide, FluxCT_parallel_flux_zero bW FW1 FW2 FW3 0 0 0 (by decide)⟩

/-- C10: `FluxCT` writes only the three magnetic components of the three
directional flux arrays: every other component (density, energy, the three
velocity slots) is unchanged at every location.  The emf arrays are local
temporaries of the call — the returned state consists of the three flux
arrays alone. -/
theorem FluxCT_frame (b : Bounds) (F1 F2 F3 : GridVars) (k j i : ℤ) :
    (FluxCT b F1 F2 F3).1 .rho k j i = F1 .rho k j i ∧
    (FluxCT b F1 F2 F3).1 .u k j i = F1 .u k j i ∧
    (FluxCT b F1 F2 F3).1 .u1 k j i = F1 .u1 k j i ∧
    (FluxCT b F1 F2 F3).1 .u2 k j i = F1 .u2 k j i ∧
    (FluxCT b F1 F2 F3).1 .u3 k j i = F1 .u3 k j i ∧
    (FluxCT b F1 F2 F3).2.1 .rho k j i = F2 .rho k j i ∧
    (FluxCT b F1 F2 F3).2.1 .u k j i = F2 .u k j i ∧
    (FluxCT b F1 F2 F3).2.1 .u1 k j i = F2 .u1 k j i ∧
    (FluxCT b F1 F2 F3).2.1 .u2 k j i = F2 .u2 k j i ∧
    (FluxCT b F1 F2 F3).2.1 .u3 k j i = F2 .u3 k j i ∧
    (FluxCT b F1 F2 F3).2.2 .rho k j i = F3 .rho k j i ∧
    (FluxCT b F1 F2 F3).2.2 .u k j i = F3 .u k j i ∧
    (FluxCT b F1 F2 F3).2.2 .u1 k j i = F3 .u1 k j i ∧
    (FluxCT b F1 F2 F3).2.2 .u2 k j i = F3 .u2 k j i ∧
    (FluxCT b F1 F2 F3).2.2 .u3 k j i = F3 .u3 k j i := by
  refine ⟨?_, ?_, ?_, ?_, ?_, ?_, ?_, ?_, ?_, ?_, ?_, ?_, ?_, ?_, ?_⟩ <;>
    simp [FluxCT, rewriteF1, rewriteF2, rewriteF3]

/-! ## Reduction lemmas for the local flux solver -/

theorem LRToFlux_some {FourV : Type} (b : Bounds) (ph : Phys FourV) (pl pr : GridVars)
    (dir : ℤ) (flux : GridVars) (ctop : GridScalar) (loc : Loci)
    (hloc : locOfDir dir = some loc) :
    LRToFlux b ph pl pr dir flux ctop
      = some (lrFluxOut b ph pl pr dir loc flux, lrCtopOut b ph pl pr dir loc ctop) := by
  unfold LRToFlux
  rw [hloc]

theorem lrFluxOut_eq {FourV : Type} (b : Bounds) (ph : Phys FourV) (pl pr : GridVars)
    (dir : ℤ) (loc : Loci) (flux : GridVars) (p : prims) (k j i : ℤ)
    (hr : haloRange b k j i) :
    lrFluxOut b ph pl pr dir loc flux p k j i
      = (1/2) * (sideFlux ph (leftIdx dir k j i).1 (leftIdx dir k j i).2.1
                   (leftIdx dir k j i).2.2 loc (leftFaceState pl dir k j i) dir p
               + sideFlux ph k j i loc (localState pr k j i) dir p
               - ctopOf ph pl pr dir loc k j i
                 * (sideU ph k j i loc (localState pr k j i) p
                    - sideU ph (leftIdx dir k j i).1 (leftIdx dir k j i).2.1
                        (leftIdx dir k j i).2.2 loc (leftFaceState pl dir k j i) p)) := by
  unfold lrFluxOut lrKernel ctopOf sideFlux sideU sideSpeeds leftFaceState localState
  rw [if_pos hr]

theorem lrCtopOut_eq {FourV : Type} (b : Bounds) (ph : Phys FourV) (pl pr : GridVars)
    (dir : ℤ) (loc : Loci) (ctop : GridScalar) (k j i : ℤ)
    (hr : haloRange b k j i) :
    lrCtopOut b ph pl pr dir loc ctop k j i = ctopOf ph pl pr dir loc k j i := by
  unfold lrCtopOut lrKernel ctopOf sideSpeeds localState
  rw [if_pos hr]

theorem sideSpeeds_fst {FourV : Type} (ph : Phys FourV) (k j i : ℤ) (loc : Loci)
    (st : prims → ℚ) (dir : ℤ) :
    (sideSpeeds ph k j i loc st dir).1
      = max (ph.vchar_roots k j i loc st (ph.get_state k j i loc st) dir).1
            (ph.vchar_roots k j i loc st (ph.get_state k j i loc st) dir).2 := rfl

theorem sideSpeeds_snd {FourV : Type} (ph : Phys FourV) (k j i : ℤ) (loc : Loci)
    (st : prims → ℚ) (dir : ℤ) :
    (sideSpeeds ph k j i loc st dir).2
      = min (ph.vchar_roots k j i loc st (ph.get_state k j i loc st) dir).1
            (ph.vchar_roots k j i loc st (ph.get_state k j i loc st) dir).2 := rfl

theorem ctopOf_expand {FourV : Type} (ph : Phys FourV) (pl pr : GridVars)
    (dir : ℤ) (loc : Loci) (k j i : ℤ) :
    ctopOf ph pl pr dir loc k j i
      = max |max (max 0 (sideSpeeds ph (leftIdx dir k j i).1 (leftIdx dir k j i).2.1
                     (leftIdx dir k j i).2.2 loc (leftFaceState pl dir k j i) dir).1)
                 ((sideSpeeds ph k j i loc (localState pr k j i) dir).1)|
            |max (max 0 (-(sideSpeeds ph (leftIdx dir k j i).1 (leftIdx dir k j i).2.1
                     (leftIdx dir k j i).2.2 loc (leftFaceState pl dir k j i) dir).2))
                 (-((sideSpeeds ph k j i loc (localState pr k j i) dir).2))| := rfl

/-- Shape of the blended speed: it is nonnegative and dominates the
absolute values of the two maxima and the two minima it is built from. -/
theorem ctop_aux (r1 r2 s1 s2 : ℚ) :
    0 ≤ max |max (max 0 (max r1 r2)) (max s1 s2)|
            |max (max 0 (-(min r1 r2))) (-(min s1 s2))| ∧
    |max r1 r2| ≤ max |max (max 0 (max r1 r2)) (max s1 s2)|
                      |max (max 0 (-(min r1 r2))) (-(min s1 s2))| ∧
    |min r1 r2| ≤ max |max (max 0 (max r1 r2)) (max s1 s2)|
                      |max (max 0 (-(min r1 r2))) (-(min s1 s2))| ∧
    |max s1 s2| ≤ max |max (max 0 (max r1 r2)) (max s1 s2)|
                      |max (max 0 (-(min r1 r2))) (-(min s1 s2))| ∧
    |min s1 s2| ≤ max |max (max 0 (max r1 r2)) (max s1 s2)|
                      |max (max 0 (-(min r1 r2))) (-(min s1 s2))| := by
  have hba : min r1 r2 ≤ max r1 r2 := min_le_max
  have hdc : min s1 s2 ≤ max s1 s2 := min_le_max
  have h0A : (0:ℚ) ≤ max (max 0 (max r1 r2)) (max s1 s2) :=
    le_trans (le_max_left 0 (max r1 r2)) (le_max_left _ _)
  have h0B : (0:ℚ) ≤ max (max 0 (-(min r1 r2))) (-(min s1 s2)) :=
    le_trans (le_max_left 0 (-(min r1 r2))) (le_max_left _ _)
  have haA : max r1 r2 ≤ max (max 0 (max r1 r2)) (max s1 s2) :=
    le_trans (le_max_right 0 (max r1 r2)) (le_max_left _ _)
  have hcA : max s1 s2 ≤ max (max 0 (max r1 r2)) (max s1 s2) := le_max_right _ _
  have hbB : -(min r1 r2) ≤ max (max 0 (-(min r1 r2))) (-(min s1 s2)) :=
    le_trans (le_max_right 0 (-(min r1 r2))) (le_max_left _ _)
  have hdB : -(min s1 s2) ≤ max (max 0 (-(min r1 r2))) (-(min s1 s2)) := le_max_right _ _
  rw [abs_of_nonneg h0A, abs_of_nonneg h0B]
  have hAt : max (max 0 (max r1 r2)) (max s1 s2)
      ≤ max (max (max 0 (max r1 r2)) (max s1 s2))
            (max (max 0 (-(min r1 r2))) (-(min s1 s2))) := le_max_left _ _
  have hBt : max (max 0 (-(min r1 r2))) (-(min s1 s2))
      ≤ max (max (max 0 (max r1 r2)) (max s1 s2))
            (max (max 0 (-(min r1 r2))) (-(min s1 s2))) := le_max_right _ _
  refine ⟨le_trans h0A hAt, abs_le.mpr ⟨?_, ?_⟩, abs_le.mpr ⟨?_, ?_⟩,
    abs_le.mpr ⟨?_, ?_⟩, abs_le.mpr ⟨?_, ?_⟩⟩ <;> linarith

/-- C3: for every face location in the computed range and every component
`p`, the flux written by `LRToFlux` equals
`0.5*(fluxL[p] + fluxR[p] - ctop*(Ur[p] - Ul[p]))` — the arithmetic
average of the left and right physical fluxes minus `ctop` times half the
jump in conservative variables (local Lax-Friedrichs / Rusanov) — with the
left quantities evaluated from `pl` at the index one zone backwards along
the active direction (state read and geometry lookup both one zone back,
as the source's calls are), the right quantities from `pr` at the face's
own index, and `ctop` the stored blended speed. -/
theorem LRToFlux_llf_formula {FourV : Type} (b : Bounds) (ph : Phys FourV)
    (pl pr : GridVars) (dir : ℤ) (flux : GridVars) (ctop : GridScalar)
    (loc : Loci) (k j i : ℤ)
    (hloc : locOfDir dir = some loc) (hr : haloRange b k j i) :
    LRToFlux b ph pl pr dir flux ctop
      = some (lrFluxOut b ph pl pr dir loc flux, lrCtopOut b ph pl pr dir loc ctop) ∧
    (∀ p, lrFluxOut b ph pl pr dir loc flux p k j i
      = (1/2) * (sideFlux ph (leftIdx dir k j i).1 (leftIdx dir k j i).2.1
                   (leftIdx dir k j i).2.2 loc (leftFaceState pl dir k j i) dir p
               + sideFlux ph k j i loc (localState pr k j i) dir p
               - lrCtopOut b ph pl pr dir loc ctop k j i
                 * (sideU ph k j i loc (localState pr k j i) p
                    - sideU ph (leftIdx dir k j i).1 (leftIdx dir k j i).2.1
                        (leftIdx dir k j i).2.2 loc (leftFaceState pl dir k j i) p))) := by
  refine ⟨LRToFlux_some b ph pl pr dir flux ctop loc hloc, fun p => ?_⟩
  rw [lrFluxOut_eq b ph pl pr dir loc flux p k j i hr,
      lrCtopOut_eq b ph pl pr dir loc ctop k j i hr]

/-- Witness: the Lax-Friedrichs formula evaluated on the sample data at
face (0,0,0) in direction 1, for the density component. -/
theorem LRToFlux_llf_formula_witness :
    locOfDir 1 = some Loci.face1 ∧ haloRange bW 0 0 0 ∧
    lrFluxOut bW physW plW prW 1 Loci.face1 fluxW .rho 0 0 0
      = (1/2) * (sideFlux physW (leftIdx 1 0 0 0).1 (leftIdx 1 0 0 0).2.1
                   (leftIdx 1 0 0 0).2.2 Loci.face1 (leftFaceState plW 1 0 0 0) 1 .rho
               + sideFlux physW 0 0 0 Loci.face1 (localState prW 0 0 0) 1 .rho
               - lrCtopOut bW physW plW prW 1 Loci.face1 ctopW 0 0 0
                 * (sideU physW 0 0 0 Loci.face1 (localState prW 0 0 0) .rho
                    - sideU physW (leftIdx 1 0 0 0).1 (leftIdx 1 0 0 0).2.1
                        (leftIdx 1 0 0 0).2.2 Loci.face1 (leftFaceState plW 1 0 0 0) .rho)) :=
  ⟨by decide, by decide,
   (LRToFlux_llf_formula bW physW plW prW 1 fluxW ctopW Loci.face1 0 0 0
      (by decide) (by decide)).2 .rho⟩

/-- C4: for every pair of left/right face states, the per-face blended
speed stored by `LRToFlux` is nonnegative and dominates the absolute value
of each of the four one-sided extremal signal speeds (`cmaxL`, `cminL`,
`cmaxR`, `cminR`) returned by `mhd_vchar` for the two adjacent states —
conservatively biased, never under-estimated. -/
theorem LRToFlux_ctop_bounds {FourV : Type} (b : Bounds) (ph : Phys FourV)
    (pl pr : GridVars) (dir : ℤ) (ctop : GridScalar) (loc : Loci) (k j i : ℤ)
    (hloc : locOfDir dir = some loc) (hr : haloRange b k j i) :
    0 ≤ lrCtopOut b ph pl pr dir loc ctop k j i ∧
    |(sideSpeeds ph (leftIdx dir k j i).1 (leftIdx dir k j i).2.1
        (leftIdx dir k j i).2.2 loc (leftFaceState pl dir k j i) dir).1|
      ≤ lrCtopOut b ph pl pr dir loc ctop k j i ∧
    |(sideSpeeds ph (leftIdx dir k j i).1 (leftIdx dir k j i).2.1
        (leftIdx dir k j i).2.2 loc (leftFaceState pl dir k j i) dir).2|
      ≤ lrCtopOut b ph pl pr dir loc ctop k j i ∧
    |(sideSpeeds ph k j i loc (localState pr k j i) dir).1|
      ≤ lrCtopOut b ph pl pr dir loc ctop k j i ∧
    |(sideSpeeds ph k j i loc (localState pr k j i) dir).2|
      ≤ lrCtopOut b ph pl pr dir loc ctop k j i := by
  rw [lrCtopOut_eq b ph pl pr dir loc ctop k j i hr, ctopOf_expand]
  simp only [sideSpeeds_fst, sideSpeeds_snd]
  exact ctop_aux _ _ _ _

/-- Witness: the speed bounds evaluated on the sample data at face (0,0,0)
in direction 1. -/
theorem LRToFlux_ctop_bounds_witness :
    locOfDir 1 = some Loci.face1 ∧ haloRange bW 0 0 0 ∧
    0 ≤ lrCtopOut bW physW plW prW 1 Loci.face1 ctopW 0 0 0 :=
  ⟨by decide, by decide,
   (LRToFlux_ctop_bounds bW physW plW prW 1 ctopW Loci.face1 0 0 0
      (by decide) (by decide)).1⟩

/-- C5 (what the code actually does at the failing input): the source
evaluates the left state's conserved vector, physical flux and wave speeds
at the offset index `(kl,jl,il)` — geometry one zone back — so identical
left/right primitive face states need not give `Ul = Ur` or
`fluxL = fluxR`.  Concretely, at face (0,0,0) in direction 1, with the
constant primitive grid `pcW` on both sides (so the state read from `pl`
at the offset index equals the state read from `pr` at the face index, for
every component) and the position-dependent physics `physC`, the flux
written by `LRToFlux` is not the physical flux of the shared state and the
dissipation term `ctop*(Ur - Ul)` is nonzero — against the claim's (and
the spec's) exact-consistency guarantee. -/
theorem LRToFlux_consistency_violation :
    LRToFlux bW physC pcW pcW 1 fluxW ctopW
      = some (lrFluxOut bW physC pcW pcW 1 Loci.face1 fluxW,
              lrCtopOut bW physC pcW pcW 1 Loci.face1 ctopW) ∧
    haloRange bW 0 0 0 ∧
    (∀ p, pcW p (leftIdx 1 0 0 0).1 (leftIdx 1 0 0 0).2.1 (leftIdx 1 0 0 0).2.2
        = pcW p 0 0 0) ∧
    lrFluxOut bW physC pcW pcW 1 Loci.face1 fluxW .rho 0 0 0
      ≠ sideFlux physC 0 0 0 Loci.face1 (localState pcW 0 0 0) 1 .rho ∧
    lrCtopOut bW physC pcW pcW 1 Loci.face1 ctopW 0 0 0
      * (sideU physC 0 0 0 Loci.face1 (localState pcW 0 0 0) .rho
         - sideU physC (leftIdx 1 0 0 0).1 (leftIdx 1 0 0 0).2.1
             (leftIdx 1 0 0 0).2.2 Loci.face1 (leftFaceState pcW 1 0 0 0) .rho)
      ≠ 0 := by
  refine ⟨rfl, by decide, fun p => rfl, ?_, ?_⟩ <;>
    norm_num [lrFluxOut, lrCtopOut, lrKernel, sideFlux, sideU, sideSpeeds, mhd_vchar,
      leftFaceState, localState, leftIdx, physC, pcW, pIdx, haloRange, bW,
      max_def, min_def, abs_eq_max_neg]

/-- C8 (what the code actually does at the failing input): for a direction
tag outside {1,2,3} the switch falls through silently — no assertion and
no fatal error fires; only a `#if DEBUG // TODO Throw an error` comment
exists — leaving the locus and left-index offset undefined (`none` /
undefined result), while for every direction in {1,2,3} the face locus and
the one-zone-backwards left-index offset are uniquely determined. -/
theorem LRToFlux_dir_dispatch :
    locOfDir 0 = none ∧ locOfDir 4 = none ∧ locOfDir (-1) = none ∧
    locOfDir 1 = some Loci.face1 ∧ locOfDir 2 = some Loci.face2 ∧
    locOfDir 3 = some Loci.face3 ∧
    (∀ k j i : ℤ, leftIdx 1 k j i = (k, j, i-1) ∧ leftIdx 2 k j i = (k, j-1, i) ∧
        leftIdx 3 k j i = (k-1, j, i)) ∧
    (∀ (FourV : Type) (b : Bounds) (ph : Phys FourV) (pl pr : GridVars)
        (flux : GridVars) (ctop : GridScalar),
        LRToFlux b ph pl pr 0 flux ctop = none ∧
        LRToFlux b ph pl pr 4 flux ctop = none) := by
  refine ⟨by decide, by decide, by decide, by decide, by decide, by decide,
    fun k j i => ⟨?_, ?_, ?_⟩,
    fun FourV b ph pl pr flux ctop => ⟨?_, ?_⟩⟩ <;>
    norm_num [leftIdx, LRToFlux, locOfDir]

/-- C9: `LRToFlux` computes the flux and `ctop` at every location of the
block interior extended by exactly one cell in each direction — `k` from
`ks-1` to `ke+1`, `j` from `js-1` to `je+1`, `i` from `is-1` to `ie+1`,
with `is..ie` etc. the interior bounds — and at no location outside that
range: outside the halo both output arrays keep their previous contents. -/
theorem LRToFlux_halo_range {FourV : Type} (b : Bounds) (ph : Phys FourV)
    (pl pr : GridVars) (dir : ℤ) (flux : GridVars) (ctop : GridScalar)
    (loc : Loci) (hloc : locOfDir dir = some loc) :
    LRToFlux b ph pl pr dir flux ctop
      = some (lrFluxOut b ph pl pr dir loc flux, lrCtopOut b ph pl pr dir loc ctop) ∧
    (∀ k j i : ℤ, haloRange b k j i ↔
        (b.ks - 1 ≤ k ∧ k ≤ b.ke + 1 ∧ b.js - 1 ≤ j ∧ j ≤ b.je + 1 ∧
         b.is - 1 ≤ i ∧ i ≤ b.ie + 1)) ∧
    (∀ (p : prims) (k j i : ℤ), haloRange b k j i →
        lrFluxOut b ph pl pr dir loc flux p k j i
          = (lrKernel ph pl pr dir loc k j i).1 p ∧
        lrCtopOut b ph pl pr dir loc ctop k j i
          = (lrKernel ph pl pr dir loc k j i).2) ∧
    (∀ (p : prims) (k j i : ℤ), ¬ haloRange b k j i →
        lrFluxOut b ph pl pr dir loc flux p k j i = flux p k j i ∧
        lrCtopOut b ph pl pr dir loc ctop k j i = ctop k j i) := by
  refine ⟨LRToFlux_some b ph pl pr dir flux ctop loc hloc,
    fun k j i => Iff.rfl, fun p k j i hr => ?_, fun p k j i hr => ?_⟩
  · constructor
    · unfold lrFluxOut
      rw [if_pos hr]
    · unfold lrCtopOut
      rw [if_pos hr]
  · constructor
    · unfold lrFluxOut
      rw [if_neg hr]
    · unfold lrCtopOut
      rw [if_neg hr]

/-- Witness: the halo-range theorem on the sample data in direction 1; the
point (0,0,0) is inside the halo and gets the kernel value, the point
(6,6,6) is outside and keeps the previous flux contents. -/
theorem LRToFlux_halo_range_witness :
    locOfDir 1 = some Loci.face1 ∧ haloRange bW 0 0 0 ∧ ¬ haloRange bW 6 6 6 ∧
    lrCtopOut bW physW plW prW 1 Loci.face1 ctopW 0 0 0
      = (lrKernel physW plW prW 1 Loci.face1 0 0 0).2 ∧
    lrFluxOut bW physW plW prW 1 Loci.face1 fluxW .rho 6 6 6 = fluxW .rho 6 6 6 :=
  ⟨by decide, by decide, by decide,
   ((LRToFlux_halo_range bW physW plW prW 1 fluxW ctopW Loci.face1
       (by decide)).2.2.1 .rho 0 0 0 (by decide)).2,
   ((LRToFlux_halo_range bW physW plW prW 1 fluxW ctopW Loci.face1
       (by decide)).2.2.2 .rho 6 6 6 (by decide)).1⟩

/-- C7: in the per-stage task list, `flux_ct` depends directly on the
three directional flux tasks, which depend only on the receive-start task
and have no dependency on one another (so they may run concurrently);
flux divergence, the source term, the conservative-state update, the
boundary fill and primitive recovery are each sequenced strictly after
`flux_ct`, in that order; and `flux_ct` appears exactly once in the list,
for every stage configuration. -/
theorem MakeTaskList_ordering :
    taskDeps .flux_ct = [.calc_flux1, .calc_flux2, .calc_flux3] ∧
    taskDeps .calc_flux1 = [.start_recv] ∧
    taskDeps .calc_flux2 = [.start_recv] ∧
    taskDeps .calc_flux3 = [.start_recv] ∧
    precedes .calc_flux1 .calc_flux2 = false ∧
    precedes .calc_flux2 .calc_flux1 = false ∧
    precedes .calc_flux1 .calc_flux3 = false ∧
    precedes .calc_flux3 .calc_flux1 = false ∧
    precedes .calc_flux2 .calc_flux3 = false ∧
    precedes .calc_flux3 .calc_flux2 = false ∧
    precedes .calc_flux1 .flux_ct = true ∧
    precedes .calc_flux2 .flux_ct = true ∧
    precedes .calc_flux3 .flux_ct = true ∧
    precedes .flux_ct .flux_div = true ∧
    precedes .flux_div .source_term = true ∧
    precedes .source_term .update_container = true ∧
    precedes .update_container .fill_from_bufs = true ∧
    precedes .fill_from_bufs .fill_derived = true ∧
    (taskAdds false false).count .flux_ct = 1 ∧
    (taskAdds false true).count .flux_ct = 1 ∧
    (taskAdds true false).count .flux_ct = 1 ∧
    (taskAdds true true).count .flux_ct = 1 := by
  decide

end Kharma
